import Mathlib

/-!
Shallow embedding of `remote_device/remote_device.py` (package
`python_remote_device`): the wire codec (`_args_to_request`), the
response correlator (`_send_request_get_response`), the response
normalizer (`_process_response_dict`), method dispatch
(`_method_func_base`, `_args_dict_to_list`), discovery
(`find_remote_device_ports`, `find_remote_device_port`), the device
collection (`RemoteDevices`) and the session close / atexit hook
(`close`, `_exit_remote_device`), together with theorems checking the
specification's claims about them.

The serial transport (`serial_device2.SerialDevice`) is an external
collaborator: its reply to a request enters the embedding as an
explicit parameter (`Option Dict`: `none` models "no response line
arrived before the timeout", `some d` models a response line that
decoded to the JSON object `d`).
-/

namespace PRD

/-- Python values that appear in requests and in decoded JSON replies:
integers, strings, `None`, and lists.  (The decoder `json_decode_dict` /
`json_decode_list` also allows nested objects; no protocol field in the
claims carries a nested object, so object values are not embedded.) -/
inductive PyVal where
  | int : Int → PyVal
  | str : String → PyVal
  | pyNone : PyVal
  | list : List PyVal → PyVal
  deriving Repr

mutual

/-- Decidable equality for `PyVal`, mirroring Python `==` on these values
(int/str/None/list compare structurally). -/
def pyDecEq : (a b : PyVal) → Decidable (a = b)
  | .int m, .int n =>
    match decEq m n with
    | isTrue h => isTrue (by rw [h])
    | isFalse h => isFalse (by intro hc; cases hc; exact h rfl)
  | .int _, .str _ => isFalse (by intro hc; cases hc)
  | .int _, .pyNone => isFalse (by intro hc; cases hc)
  | .int _, .list _ => isFalse (by intro hc; cases hc)
  | .str s, .str t =>
    match decEq s t with
    | isTrue h => isTrue (by rw [h])
    | isFalse h => isFalse (by intro hc; cases hc; exact h rfl)
  | .str _, .int _ => isFalse (by intro hc; cases hc)
  | .str _, .pyNone => isFalse (by intro hc; cases hc)
  | .str _, .list _ => isFalse (by intro hc; cases hc)
  | .pyNone, .pyNone => isTrue rfl
  | .pyNone, .int _ => isFalse (by intro hc; cases hc)
  | .pyNone, .str _ => isFalse (by intro hc; cases hc)
  | .pyNone, .list _ => isFalse (by intro hc; cases hc)
  | .list xs, .list ys =>
    match pyDecEqList xs ys with
    | isTrue h => isTrue (by rw [h])
    | isFalse h => isFalse (by intro hc; cases hc; exact h rfl)
  | .list _, .int _ => isFalse (by intro hc; cases hc)
  | .list _, .str _ => isFalse (by intro hc; cases hc)
  | .list _, .pyNone => isFalse (by intro hc; cases hc)

/-- Decidable equality for lists of `PyVal`. -/
def pyDecEqList : (xs ys : List PyVal) → Decidable (xs = ys)
  | [], [] => isTrue rfl
  | [], _ :: _ => isFalse (by intro hc; cases hc)
  | _ :: _, [] => isFalse (by intro hc; cases hc)
  | x :: xs, y :: ys =>
    match pyDecEq x y, pyDecEqList xs ys with
    | isTrue h1, isTrue h2 => isTrue (by rw [h1, h2])
    | isFalse h1, _ => isFalse (by intro hc; cases hc; exact h1 rfl)
    | _, isFalse h2 => isFalse (by intro hc; cases hc; exact h2 rfl)

end

instance : DecidableEq PyVal := pyDecEq

mutual

/-- Python `str()` on the embedded values, as used by `_args_to_request`
via `map(str, args)`: an integer renders in decimal, a string renders as
itself (no quotes are added), `None` renders as `None`, and a list
renders as `[` + the comma-space-joined `repr`s of its items + `]`. -/
def pyStr : PyVal → String
  | .int n => toString n
  | .str s => s
  | .pyNone => "None"
  | .list vs => "[" ++ String.intercalate ", " (pyReprList vs) ++ "]"

/-- Python `repr()` on the embedded values (only reached for items inside
a list rendered by `str()`): like `str()` except that strings are
surrounded by single quotes. -/
def pyRepr : PyVal → String
  | .int n => toString n
  | .str s => "\x27" ++ s ++ "\x27"
  | .pyNone => "None"
  | .list vs => "[" ++ String.intercalate ", " (pyReprList vs) ++ "]"

/-- The `repr()`s of a list of values. -/
def pyReprList : List PyVal → List String
  | [] => []
  | v :: vs => pyRepr v :: pyReprList vs

end

/-- A decoded JSON object (Python `dict` with string keys): an
association list.  Decoded JSON objects have pairwise distinct keys;
the operations below look at the first occurrence of a key. -/
abbrev Dict := List (String × PyVal)

/-- Python `d[k]` / `d.get(k)`: the value at key `k`, if present. -/
def dictLookup (d : Dict) (k : String) : Option PyVal :=
  match d with
  | [] => Option.none
  | (key, v) :: rest => if key = k then some v else dictLookup rest k

/-- Removal of every entry at key `k` (the removal effect of Python
`d.pop(k)`; on a dict with distinct keys exactly one entry is removed). -/
def dictErase (d : Dict) (k : String) : Dict :=
  d.filter (fun p => p.1 != k)

/-- Python `d.pop(k)`: the value at `k` together with the dict without
`k`, or `none` when `k` is absent (the `KeyError` case). -/
def dictPop (d : Dict) (k : String) : Option (PyVal × Dict) :=
  match dictLookup d k with
  | Option.none => Option.none
  | some v => some (v, dictErase d k)

/-- Python exceptions raised by the embedded code, with their message. -/
inductive PyErr where
  | ioError : String → PyErr
  | keyError : String → PyErr
  | nameError : String → PyErr
  | typeError : String → PyErr
  | runtimeError : String → PyErr
  deriving DecidableEq, Repr

/-- Embeds `_args_to_request` (remote_device.py lines 107-111): the
request line is `[` + the comma-joined `str()` forms of the arguments +
`]` + the line terminator `\n`.  The codec itself adds no quoting. -/
def args_to_request (args : List PyVal) : String :=
  let request_list := ["[", String.intercalate "," (args.map pyStr), "]"]
  let request := String.join request_list
  request ++ "\n"

/-- Embeds the correlation part of `_send_request_get_response`
(remote_device.py lines 135-160), applied to the decoded reply
`response_dict`, the id `request_id` that headed the request
(`args[0]`), and the session's response-status catalog
`response_catalog` (`self._response_dict`, which is still `None` during
the first handshake call):

1. pop `status` (else `IOError` "Device response does not contain status.");
2. pop `cmd_id` (else `IOError` "Device response does not contain id.");
3. if the popped `cmd_id` differs from `request_id`, `IOError`
   "Device response id does not match that sent.";
4. if the catalog is known and `status` equals its `rsp_error` entry,
   `IOError` carrying `(from device) ` + the reply's `err_msg` when that
   key is present, else "Error message missing.";
5. otherwise return the reply with `status` and `cmd_id` removed. -/
def correlate_response (response_dict : Dict) (request_id : PyVal)
    (response_catalog : Option Dict) : Except PyErr Dict :=
  match dictPop response_dict "status" with
  | Option.none => .error (.ioError "Device response does not contain status.")
  | some (status, d1) =>
    match dictPop d1 "cmd_id" with
    | Option.none => .error (.ioError "Device response does not contain id.")
    | some (response_id, d2) =>
      if response_id = request_id then
        match response_catalog with
        | Option.none => .ok d2
        | some catalog =>
          match dictLookup catalog "rsp_error" with
          | Option.none => .error (.keyError "rsp_error")
          | some error_status =>
            if status = error_status then
              let dev_err_msg :=
                match dictLookup d2 "err_msg" with
                | some m => "(from device) " ++ pyStr m
                | Option.none => "Error message missing."
              .error (.ioError dev_err_msg)
            else .ok d2
      else .error (.ioError "Device response id does not match that sent.")

/-- Embeds `_send_request_get_response` (remote_device.py lines
123-160).  The serial exchange is the collaborator: `response` is what
`write_read` returned, already decoded (`none` = no line arrived before
the timeout, `some d` = the line decoded to `d`).  When no response
arrived the function returns the empty dict without error; otherwise it
correlates the decoded reply. -/
def send_request_get_response (response : Option Dict) (request_id : PyVal)
    (response_catalog : Option Dict) : Except PyErr Dict :=
  match response with
  | Option.none => .ok []
  | some response_dict => correlate_response response_dict request_id response_catalog

/-- Truth of `type(v) == str and not v` for a value `v`: the value kept
by the normalizer's `all_values_empty` scan is exactly a string equal to
`""`.  (In `_process_response_dict` the scan clears `all_values_empty`
when `not type(v) == str or v`.) -/
def isEmptyStr : PyVal → Bool
  | .str s => s == ""
  | _ => false

/-- Lexicographic less-or-equal on character lists by character code —
the order Python uses to compare strings. -/
def strCharsLe : List Char → List Char → Bool
  | [], _ => true
  | _ :: _, [] => false
  | c :: cs, e :: es =>
    if c.toNat < e.toNat then true
    else if e.toNat < c.toNat then false
    else strCharsLe cs es

/-- Python `<=` on strings: lexicographic by character code. -/
def strLe (s t : String) : Bool :=
  strCharsLe s.data t.data

/-- Insertion of a string into an ascending list, preserving order. -/
def insertStr (s : String) : List String → List String
  | [] => [s]
  | t :: ts => if strLe s t then s :: t :: ts else t :: insertStr s ts

/-- Python `sorted()` on a list of strings (ascending lexicographic
order), realized as insertion sort. -/
def sortStrings : List String → List String
  | [] => []
  | s :: ss => insertStr s (sortStrings ss)

/-- Return value of a synthesized method: a bare value (scalar
collapse), a sorted list of flag names, or the result mapping itself. -/
inductive RetValue where
  | val : PyVal → RetValue
  | flags : List String → RetValue
  | dict : Dict → RetValue
  deriving DecidableEq, Repr

/-- Embeds `_process_response_dict` (remote_device.py lines 208-221):
a one-entry mapping collapses to its value; otherwise, if every value is
an empty string (`all_values_empty` survives the scan), the sorted list
of keys is returned; otherwise the mapping is returned unchanged. -/
def process_response_dict (response_dict : Dict) : RetValue :=
  match response_dict with
  | [(_, v)] => .val v
  | d =>
    if d.all (fun p => isEmptyStr p.2) then
      .flags (sortStrings (d.map Prod.fst))
    else
      .dict d

/-- An argument of a synthesized method call: a plain value, or a dict
(the keyword-style calling convention `type(args[0]) is dict`). -/
inductive CallArg where
  | val : PyVal → CallArg
  | dictArg : Dict → CallArg
  deriving DecidableEq, Repr

/-- Embeds `_args_dict_to_list` (remote_device.py lines 223-227).  Its
first statement (`key_set = set(args_dict.keys())`) succeeds and is
unused; its second statement reads the module-global name `order_dict`,
which is defined nowhere in the module, so every call raises `NameError`
before any argument resolution happens. -/
def args_dict_to_list (_args_dict : Dict) : Except PyErr (List PyVal) :=
  .error (.nameError "global name \x27order_dict\x27 is not defined")

/-- Embeds `_method_func_base` (remote_device.py lines 190-199) for the
method whose catalog id is `method_id`: a single dict argument is first
resolved through `_args_dict_to_list`, any other argument list is used
as the positional arguments; the request is then sent and the reply
correlated (`_send_request_by_method_name` →
`_send_request_get_response`, with the device's reply entering as the
`response` parameter); a non-empty result mapping is normalized by
`_process_response_dict`, and an empty one makes the call return `None`
(the function body ends without a `return`). -/
def method_func_base (args : List CallArg) (method_id : PyVal)
    (response : Option Dict) (response_catalog : Option Dict) :
    Except PyErr (Option RetValue) :=
  match (match args with
         | [CallArg.dictArg args_dict] =>
             Except.map (List.map CallArg.val) (args_dict_to_list args_dict)
         | _ => Except.ok args) with
  | .error e => .error e
  | .ok _args_list =>
    match send_request_get_response response method_id response_catalog with
    | .error e => .error e
    | .ok response_dict =>
      if response_dict.isEmpty then .ok Option.none
      else .ok (some (process_response_dict response_dict))

/-- Device identity as read by `_get_device_info` (remote_device.py
lines 162-171): `model_number` and `serial_number` from the device-info
reply, each `None` when the reply lacks the key. -/
structure DeviceIdent where
  model_number : Option Int
  serial_number : Option Int
  deriving DecidableEq, Repr

/-- A model-number or serial-number filter as passed to
`find_remote_device_ports`: `None`, a single int, or a list of ints. -/
inductive NumberFilter where
  | noneF : NumberFilter
  | intF : Int → NumberFilter
  | listF : List Int → NumberFilter
  deriving DecidableEq, Repr

/-- Embeds the filter normalization in `find_remote_device_ports`
(remote_device.py lines 354-357): `if type(x) is int: x = [x]`. -/
def normalize_number_filter : NumberFilter → Option (List Int)
  | .noneF => Option.none
  | .intF n => some [n]
  | .listF ns => some ns

/-- Embeds one filter conjunct of `find_remote_device_ports`
(remote_device.py lines 363-364), e.g.
`((model_number is None) and (dev.model_number is not None)) or
(dev.model_number in model_number)`: with no filter, a reported number
passes and a `None` number reaches `None in None`, which raises
`TypeError` (uncaught — the surrounding `except` clause only catches
`SerialException` and `IOError`); with a filter list, a reported number
passes iff it is in the list and a `None` number fails (`None in [..]`
is `False`). -/
def filter_accepts (filter_numbers : Option (List Int))
    (dev_number : Option Int) : Except PyErr Bool :=
  match filter_numbers with
  | Option.none =>
    match dev_number with
    | some _ => .ok true
    | Option.none =>
        .error (.typeError "argument of type \x27NoneType\x27 is not iterable")
  | some ns =>
    match dev_number with
    | some n => .ok (ns.contains n)
    | Option.none => .ok false

/-- The port-scanning loop of `find_remote_device_ports`
(remote_device.py lines 359-370).  Each candidate port comes with the
outcome of opening a `RemoteDevice` on it: `none` models an open that
raised one of the caught exception classes (`serial.SerialException`,
`IOError`) — the port is skipped — and `some dev` models a successful
open reporting identity `dev`.  A surviving device is kept iff the
model-number filter accepts its model number and then the serial-number
filter accepts its serial number; a `TypeError` raised by either filter
conjunct aborts the whole scan. -/
def find_remote_device_ports_loop
    (candidates : List (String × Option DeviceIdent))
    (model_filter serial_filter : Option (List Int)) :
    Except PyErr (List (String × DeviceIdent)) :=
  match candidates with
  | [] => .ok []
  | (_, Option.none) :: rest =>
      find_remote_device_ports_loop rest model_filter serial_filter
  | (port, some dev) :: rest =>
    match filter_accepts model_filter dev.model_number with
    | .error e => .error e
    | .ok false => find_remote_device_ports_loop rest model_filter serial_filter
    | .ok true =>
      match filter_accepts serial_filter dev.serial_number with
      | .error e => .error e
      | .ok false => find_remote_device_ports_loop rest model_filter serial_filter
      | .ok true =>
        match find_remote_device_ports_loop rest model_filter serial_filter with
        | .error e => .error e
        | .ok acc => .ok ((port, dev) :: acc)

/-- Embeds `find_remote_device_ports` (remote_device.py lines 348-370):
normalize the two filters, then scan the candidate ports.  `candidates`
is the output of the collaborator `find_serial_device_ports` paired with
each port's open outcome (the Darwin-only name filter of line 351-352 is
platform state outside the embedding).  The Python function accumulates
matched_ports in a dict keyed by port; the embedding keeps them in candidate
order. -/
def find_remote_device_ports (candidates : List (String × Option DeviceIdent))
    (model_filter serial_filter : NumberFilter) :
    Except PyErr (List (String × DeviceIdent)) :=
  find_remote_device_ports_loop candidates
    (normalize_number_filter model_filter)
    (normalize_number_filter serial_filter)

/-- Python `str()` of an optional int: `None` or the decimal form. -/
def opt_int_str : Option Int → String
  | Option.none => "None"
  | some n => toString n

/-- Python `str()` of a list of port-name strings, as interpolated into
the `NoDeviceFound`-style message: `[` + comma-space-joined quoted
names + `]`. -/
def str_list_of_ports (ports : List String) : String :=
  "[" ++ String.intercalate ", "
    (ports.map (fun p => "\x27" ++ p ++ "\x27")) ++ "]"

/-- Python `str()` of the identity dict
`\x7b'model_number': m, 'serial_number': s\x7d` stored per matching
port (rendered in insertion order; a Python 2 dict renders its two keys
in hash order, the content is the same). -/
def ident_dict_str (dev : DeviceIdent) : String :=
  "\x7b\x27model_number\x27: " ++ opt_int_str dev.model_number ++
    ", \x27serial_number\x27: " ++ opt_int_str dev.serial_number ++ "\x7d"

/-- Python `str()` of the matching-ports dict interpolated into the
`AmbiguousDevice`-style message (rendered in match order). -/
def matching_ports_str (matched_ports : List (String × DeviceIdent)) : String :=
  "\x7b" ++ String.intercalate ", "
    (matched_ports.map (fun pr => "\x27" ++ pr.1 ++ "\x27: " ++ ident_dict_str pr.2))
    ++ "\x7d"

/-- Embeds `find_remote_device_port` (remote_device.py lines 372-388):
exactly one match returns that port; zero matched_ports raises `RuntimeError`
whose message lists the candidate ports that were tried (the Python code
re-enumerates them via `find_serial_device_ports`); two or more matched_ports
raises `RuntimeError` whose message lists the matching ports with their
identities. -/
def find_remote_device_port (candidates : List (String × Option DeviceIdent))
    (model_filter serial_filter : NumberFilter) : Except PyErr String :=
  match find_remote_device_ports candidates model_filter serial_filter with
  | .error e => .error e
  | .ok matched_ports =>
    match matched_ports with
    | [(port, _)] => .ok port
    | [] => .error (.runtimeError
        ("Could not find any Remote devices. Check connections and permissions.\n"
          ++ "Tried ports: " ++ str_list_of_ports (candidates.map Prod.fst)))
    | _ => .error (.runtimeError
        ("Found more than one Remote device. Specify port or model_number and/or serial_number.\n"
          ++ "Matching ports: " ++ matching_ports_str matched_ports))

/-- Python 2 `<` on the optional ints compared through
`operator.attrgetter`: `None` sorts before every int, ints compare
numerically. -/
def opt_int_lt : Option Int → Option Int → Bool
  | Option.none, some _ => true
  | Option.none, Option.none => false
  | some _, Option.none => false
  | some m, some n => decide (m < n)

/-- Python 2 `<=` on the optional ints (`<` or equal). -/
def opt_int_le (a b : Option Int) : Bool :=
  opt_int_lt a b || a == b

/-- Python 2 tuple comparison of the sort keys produced by
`operator.attrgetter('model_number','serial_number')`: lexicographic —
strictly smaller model number, or equal model number and
less-or-equal serial number. -/
def tuple_le (a b : DeviceIdent) : Bool :=
  opt_int_lt a.model_number b.model_number ||
    (a.model_number == b.model_number &&
      opt_int_le a.serial_number b.serial_number)

/-- Insertion into a list ascending under `tuple_le`. -/
def insert_device (dev : DeviceIdent) :
    List DeviceIdent → List DeviceIdent
  | [] => [dev]
  | d :: ds =>
    if tuple_le dev d then dev :: d :: ds else d :: insert_device dev ds

/-- Embeds `RemoteDevices.sort_by_model_number` (remote_device.py lines
274-276): `list.sort` with key `(model_number, serial_number)`,
realized as insertion sort under the Python 2 tuple order. -/
def sort_by_model_number : List DeviceIdent → List DeviceIdent
  | [] => []
  | d :: ds => insert_device d (sort_by_model_number ds)

/-- Embeds the tail of `RemoteDevices.__init__` (remote_device.py lines
253-263): after one `RemoteDevice` has been appended per discovered
port, the collection sorts itself with `sort_by_model_number`; the
argument is the list of appended device identities in append order. -/
def remote_devices_init (devs : List DeviceIdent) : List DeviceIdent :=
  sort_by_model_number devs

/-- State of the serial link owned by one session. -/
structure SerialLinkState where
  is_open : Bool
  deriving DecidableEq, Repr

/-- Embeds `RemoteDevice.close` (remote_device.py lines 229-233):
releases the underlying serial port (`self._serial_device.close()`). -/
def close (s : SerialLinkState) : SerialLinkState :=
  { s with is_open := false }

/-- Embeds `_exit_remote_device` (remote_device.py lines 104-105), the
function registered with `atexit` at construction (line 89): its entire
body is `pass`, so it leaves the link state unchanged. -/
def exit_remote_device (s : SerialLinkState) : SerialLinkState :=
  s

/-- Erasing one key does not change the lookup of a different key. -/
theorem dictLookup_dictErase_ne (d : Dict) (k k2 : String) (h : k ≠ k2) :
    dictLookup (dictErase d k2) k = dictLookup d k := by
  induction d with
  | nil => rfl
  | cons p rest ih =>
    obtain ⟨key, v⟩ := p
    simp only [dictErase, List.filter_cons] at ih ⊢
    by_cases hk : key = k2
    · subst hk
      have hb : (key != key) = false := by simp
      rw [hb]
      simp only [Bool.false_eq_true, if_false]
      rw [ih]
      have hkk : key ≠ k := fun hc => h (hc ▸ rfl)
      simp [dictLookup, hkk]
    · have hb : (key != k2) = true := by simp [hk]
      rw [hb]
      simp only [if_true]
      by_cases hkey : key = k
      · subst hkey
        simp [dictLookup]
      · simp [dictLookup, hkey, ih]

/-- A present key makes `dictPop` return its value and the erased dict. -/
theorem dictPop_of_lookup (d : Dict) (k : String) (v : PyVal)
    (h : dictLookup d k = some v) :
    dictPop d k = some (v, dictErase d k) := by
  simp [dictPop, h]

/-- C5: for every finite sequence of argument values, encoding produces
exactly `[` + the comma-joined canonical string forms of the arguments +
`]` + a single line terminator, with no quoting added by the codec; in
particular the string argument "x" renders as `x` and encoding the
arguments `1, 2, "x"` yields exactly `[1,2,x]` followed by the line
terminator. -/
theorem C5_request_encoding (args : List PyVal) :
    args_to_request args =
      "[" ++ String.intercalate "," (args.map pyStr) ++ "]" ++ "\n" ∧
    pyStr (PyVal.str "x") = "x" ∧
    args_to_request [PyVal.int 1, PyVal.int 2, PyVal.str "x"] = "[1,2,x]\n" :=
  ⟨rfl, rfl, rfl⟩

/-- C1: for every decoded reply containing both a `status` key and a
`cmd_id` key, a mismatched `cmd_id` always fails with the
protocol-error `IOError` regardless of the rest of the payload and of
the status catalog; correlation succeeds only when `cmd_id` equals the
request's id, and on success the returned result mapping is exactly the
reply mapping with the `status` and `cmd_id` entries removed, every
other key looking up unaltered. -/
theorem C1_correlation (d : Dict) (rid st cid : PyVal)
    (hst : dictLookup d "status" = some st)
    (hcid : dictLookup d "cmd_id" = some cid) :
    (cid ≠ rid → ∀ catalog, correlate_response d rid catalog =
        .error (.ioError "Device response id does not match that sent.")) ∧
    (∀ catalog res, correlate_response d rid catalog = .ok res →
        cid = rid ∧
        res = dictErase (dictErase d "status") "cmd_id" ∧
        ∀ k, k ≠ "status" → k ≠ "cmd_id" →
          dictLookup res k = dictLookup d k) := by
  have hpop1 : dictPop d "status" = some (st, dictErase d "status") :=
    dictPop_of_lookup d "status" st hst
  have hl2 : dictLookup (dictErase d "status") "cmd_id" = some cid := by
    rw [dictLookup_dictErase_ne _ _ _ (by decide)]
    exact hcid
  have hpop2 : dictPop (dictErase d "status") "cmd_id" =
      some (cid, dictErase (dictErase d "status") "cmd_id") :=
    dictPop_of_lookup _ "cmd_id" cid hl2
  have hres : ∀ k, k ≠ "status" → k ≠ "cmd_id" →
      dictLookup (dictErase (dictErase d "status") "cmd_id") k =
        dictLookup d k := by
    intro k h1 h2
    rw [dictLookup_dictErase_ne _ _ _ h2, dictLookup_dictErase_ne _ _ _ h1]
  constructor
  · intro hne catalog
    simp only [correlate_response, hpop1, hpop2]
    simp [hne]
  · intro catalog res hok
    simp only [correlate_response, hpop1, hpop2] at hok
    by_cases hcr : cid = rid
    · subst hcr
      have hd2 : res = dictErase (dictErase d "status") "cmd_id" := by
        match catalog with
        | Option.none =>
          simp at hok
          simp [hok]
        | some cat =>
          simp only [eq_self_iff_true, if_true] at hok
          match hl : dictLookup cat "rsp_error" with
          | Option.none =>
            rw [hl] at hok
            simp at hok
          | some es =>
            rw [hl] at hok
            by_cases hse : st = es
            · simp [hse] at hok
            · simp [hse] at hok
              simp [hok]
      exact ⟨rfl, hd2, fun k h1 h2 => hd2 ▸ hres k h1 h2⟩
    · simp [hcr] at hok

/-- Concrete instance of `C1_correlation`: a reply carrying `cmd_id` 5
correlated against request id 6 fails with the id-mismatch error. -/
theorem C1_correlation_witness :
    correlate_response
        [("status", PyVal.int 0), ("cmd_id", PyVal.int 5), ("x", PyVal.int 42)]
        (PyVal.int 6)
        (some [("rsp_success", PyVal.int 0), ("rsp_error", PyVal.int 1)]) =
      .error (.ioError "Device response id does not match that sent.") :=
  (C1_correlation
      [("status", PyVal.int 0), ("cmd_id", PyVal.int 5), ("x", PyVal.int 42)]
      (PyVal.int 6) (PyVal.int 0) (PyVal.int 5) rfl rfl).1
    (by decide) _

/-- C4: for every reply with matching `cmd_id` whose `status` equals the
status catalog's error status, correlation fails with the device-error
`IOError` carrying the reply's `err_msg` field when present and the
generic "Error message missing." placeholder otherwise; and the
error-status check is skipped while the status catalog is not yet known
(the first handshake call), where correlation succeeds instead. -/
theorem C4_device_error (d : Dict) (rid st : PyVal) (catalog : Dict)
    (hst : dictLookup d "status" = some st)
    (hcid : dictLookup d "cmd_id" = some rid)
    (herr : dictLookup catalog "rsp_error" = some st) :
    (∀ m, dictLookup d "err_msg" = some m →
        correlate_response d rid (some catalog) =
          .error (.ioError ("(from device) " ++ pyStr m))) ∧
    (dictLookup d "err_msg" = Option.none →
        correlate_response d rid (some catalog) =
          .error (.ioError "Error message missing.")) ∧
    correlate_response d rid Option.none =
      .ok (dictErase (dictErase d "status") "cmd_id") := by
  have hpop1 := dictPop_of_lookup d "status" st hst
  have hl2 : dictLookup (dictErase d "status") "cmd_id" = some rid := by
    rw [dictLookup_dictErase_ne _ _ _ (by decide)]
    exact hcid
  have hpop2 := dictPop_of_lookup _ "cmd_id" rid hl2
  have hmsg : ∀ x, dictLookup d "err_msg" = x →
      dictLookup (dictErase (dictErase d "status") "cmd_id") "err_msg" = x := by
    intro x hx
    rw [dictLookup_dictErase_ne _ _ _ (by decide),
      dictLookup_dictErase_ne _ _ _ (by decide)]
    exact hx
  refine ⟨?_, ?_, ?_⟩
  · intro m hm
    simp only [correlate_response, hpop1, hpop2]
    simp [herr, hmsg _ hm]
  · intro hm
    simp only [correlate_response, hpop1, hpop2]
    simp [herr, hmsg _ hm]
  · simp only [correlate_response, hpop1, hpop2]
    simp

/-- Concrete instance of `C4_device_error`: an error-status reply with a
device-supplied `err_msg` fails with the message from the device. -/
theorem C4_device_error_witness :
    correlate_response
        [("status", PyVal.int 1), ("cmd_id", PyVal.int 5),
          ("err_msg", PyVal.str "bad arg")]
        (PyVal.int 5)
        (some [("rsp_success", PyVal.int 0), ("rsp_error", PyVal.int 1)]) =
      .error (.ioError "(from device) bad arg") :=
  (C4_device_error
      [("status", PyVal.int 1), ("cmd_id", PyVal.int 5),
        ("err_msg", PyVal.str "bad arg")]
      (PyVal.int 5) (PyVal.int 1)
      [("rsp_success", PyVal.int 0), ("rsp_error", PyVal.int 1)]
      rfl rfl rfl).1 (PyVal.str "bad arg") rfl

/-- C2: when no response line arrives (the link returns no data), the
request/response operation yields an empty `Reply` mapping rather than
an error, and a synthesized method invocation (any positional argument
list) in that case returns `None` — no value — rather than an empty
mapping. -/
theorem C2_no_response (vs : List PyVal) (rid method_id : PyVal)
    (catalog : Option Dict) :
    send_request_get_response Option.none rid catalog = .ok [] ∧
    method_func_base (vs.map CallArg.val) method_id Option.none catalog =
      .ok Option.none := by
  refine ⟨rfl, ?_⟩
  match vs with
  | [] => rfl
  | [v] => rfl
  | v :: w :: rest => rfl

/-- C3: the normalizer collapses a one-entry mapping to that entry's
value; a mapping with more than one entry and at least one value that is
not an empty string is returned unchanged; a mapping (other than a
one-entry one) all of whose values are empty strings becomes the sorted
list of its keys.  In particular `{"x": 5}` normalizes to `5`,
`{"a": "", "b": ""}` to `["a", "b"]`, and `{"a": "", "b": "y"}` to
itself. -/
theorem C3_normalizer (k0 : String) (v0 : PyVal) (d : Dict) :
    process_response_dict [(k0, v0)] = .val v0 ∧
    (1 < d.length → (∃ p ∈ d, isEmptyStr p.2 = false) →
        process_response_dict d = .dict d) ∧
    (d.length ≠ 1 → (∀ p ∈ d, isEmptyStr p.2 = true) →
        process_response_dict d = .flags (sortStrings (d.map Prod.fst))) ∧
    process_response_dict [("x", PyVal.int 5)] = .val (PyVal.int 5) ∧
    process_response_dict [("a", PyVal.str ""), ("b", PyVal.str "")] =
      .flags ["a", "b"] ∧
    process_response_dict [("a", PyVal.str ""), ("b", PyVal.str "y")] =
      .dict [("a", PyVal.str ""), ("b", PyVal.str "y")] := by
  refine ⟨rfl, ?_, ?_, rfl, by decide, by decide⟩
  · intro hlen hex
    match d with
    | [] => simp at hlen
    | [p] => simp at hlen
    | p :: q :: rest =>
      have hall : ((p :: q :: rest).all (fun pr => isEmptyStr pr.2)) = false := by
        rcases hex with ⟨x, hx, hxf⟩
        apply Bool.eq_false_iff.mpr
        intro hc
        rw [List.all_eq_true] at hc
        have hxt := hc x hx
        rw [hxf] at hxt
        exact Bool.false_ne_true hxt
      simp only [process_response_dict]
      rw [hall]
      simp
  · intro hlen hforall
    match d with
    | [] => rfl
    | [p] => exact absurd rfl hlen
    | p :: q :: rest =>
      have hall : ((p :: q :: rest).all (fun pr => isEmptyStr pr.2)) = true :=
        List.all_eq_true.mpr fun x hx => hforall x hx
      simp only [process_response_dict]
      rw [hall]
      simp

/-- Concrete instance of `C3_normalizer`: a two-entry mapping with a
non-string value is returned unchanged. -/
theorem C3_normalizer_witness :
    process_response_dict [("a", PyVal.str ""), ("b", PyVal.int 0)] =
      .dict [("a", PyVal.str ""), ("b", PyVal.int 0)] :=
  (C3_normalizer "x" PyVal.pyNone
      [("a", PyVal.str ""), ("b", PyVal.int 0)]).2.1 (by decide)
    ⟨("b", PyVal.int 0), by decide, by decide⟩

/-- C6 (code bug): the claim says an invocation passing a single mapping
resolves its named parameters into the device's declared positional
order; in the source the order map `order_dict` that
`_args_dict_to_list` reads is defined nowhere in the module, so the
resolution — and with it every single-dict invocation — raises
`NameError` before any request is sent. -/
theorem C6_kwargs_name_error :
    args_dict_to_list [("x", PyVal.int 1)] =
      .error (.nameError "global name \x27order_dict\x27 is not defined") ∧
    method_func_base [CallArg.dictArg [("x", PyVal.int 1)]] (PyVal.int 5)
        (some [("status", PyVal.int 0), ("cmd_id", PyVal.int 5),
          ("y", PyVal.int 2)])
        (some [("rsp_success", PyVal.int 0), ("rsp_error", PyVal.int 1)]) =
      .error (.nameError "global name \x27order_dict\x27 is not defined") ∧
    (∀ d : Dict, args_dict_to_list d =
        .error (.nameError "global name \x27order_dict\x27 is not defined")) :=
  ⟨rfl, rfl, fun _ => rfl⟩

/-- C8 (code bug): the function registered with the process-exit hook
(`_exit_remote_device`, body `pass`) leaves an open link open, while an
explicit `close()` closes it — the hook does not perform the release
the claim describes. -/
theorem C8_exit_hook_is_noop :
    exit_remote_device { is_open := true } = { is_open := true } ∧
    close { is_open := true } = { is_open := false } ∧
    exit_remote_device { is_open := true } ≠ close { is_open := true } :=
  ⟨rfl, rfl, by decide⟩

/-- C10: when candidate enumeration runs with no model-number filter and
no serial-number filter, every port in a returned port-to-identity
mapping belongs to a device that reported both a non-`None` model number
and a non-`None` serial number; a successfully opened candidate
reporting `None` for either identity field is never part of a returned
mapping.  (In the code such a candidate in fact aborts the whole scan
with an uncaught `TypeError` from `None in None`, so no mapping
containing it is ever returned.) -/
theorem C10_unconstrained_scan
    (candidates : List (String × Option DeviceIdent))
    (result : List (String × DeviceIdent))
    (h : find_remote_device_ports candidates
        NumberFilter.noneF NumberFilter.noneF = .ok result) :
    (∀ p ident, (p, ident) ∈ result →
        ident.model_number ≠ Option.none ∧
        ident.serial_number ≠ Option.none) ∧
    (∀ p ident,
        ident.model_number = Option.none ∨
          ident.serial_number = Option.none →
        (p, ident) ∉ result) := by
  have main : ∀ (cs : List (String × Option DeviceIdent))
      (res : List (String × DeviceIdent)),
      find_remote_device_ports_loop cs Option.none Option.none = .ok res →
      ∀ p ident, (p, ident) ∈ res →
        ident.model_number ≠ Option.none ∧
        ident.serial_number ≠ Option.none := by
    intro cs
    induction cs with
    | nil =>
      intro res hres p ident hmem
      simp only [find_remote_device_ports_loop, Except.ok.injEq] at hres
      rw [← hres] at hmem
      cases hmem
    | cons c rest ih =>
      intro res hres p ident hmem
      obtain ⟨port, odev⟩ := c
      match odev with
      | Option.none =>
        exact ih res hres p ident hmem
      | some dev =>
        match hmod : dev.model_number with
        | Option.none =>
          simp only [find_remote_device_ports_loop, filter_accepts, hmod]
            at hres
          cases hres
        | some m =>
          match hser : dev.serial_number with
          | Option.none =>
            simp only [find_remote_device_ports_loop, filter_accepts,
              hmod, hser] at hres
            cases hres
          | some s =>
            simp only [find_remote_device_ports_loop, filter_accepts,
              hmod, hser] at hres
            match hrest : find_remote_device_ports_loop rest
                Option.none Option.none with
            | .error e => rw [hrest] at hres; cases hres
            | .ok acc =>
              rw [hrest] at hres
              simp only [Except.ok.injEq] at hres
              rw [← hres] at hmem
              rcases List.mem_cons.mp hmem with heq | htail
              · obtain ⟨hp, hi⟩ := Prod.mk.injEq .. ▸ heq
                subst hi
                simp [hmod, hser]
              · exact ih acc hrest p ident htail
  refine ⟨main candidates result h, ?_⟩
  intro p ident hni hmem
  rcases hni with h1 | h1
  · exact absurd h1 (main candidates result h p ident hmem).1
  · exact absurd h1 (main candidates result h p ident hmem).2

/-- Concrete instance of `C10_unconstrained_scan`: an unconstrained scan
over one fully identified device and one failed-open port returns only
the identified device, whose identity fields are both present. -/
theorem C10_unconstrained_scan_witness :
    find_remote_device_ports
        [("a", some ⟨some 7, some 2⟩), ("b", Option.none)]
        NumberFilter.noneF NumberFilter.noneF =
      .ok [("a", ⟨some 7, some 2⟩)] ∧
    ((⟨some 7, some 2⟩ : DeviceIdent).model_number ≠ Option.none ∧
      (⟨some 7, some 2⟩ : DeviceIdent).serial_number ≠ Option.none) :=
  ⟨rfl, (C10_unconstrained_scan
      [("a", some ⟨some 7, some 2⟩), ("b", Option.none)]
      [("a", ⟨some 7, some 2⟩)] rfl).1 "a" ⟨some 7, some 2⟩ (by decide)⟩

/-- C7: single-port resolution succeeds iff exactly one candidate port
matches the filters; a unique match returns that port; zero matches
fail with the `RuntimeError` whose message lists the candidate ports
that were tried; two or more matches fail with the `RuntimeError` whose
message lists the matching ports and their identities. -/
theorem C7_single_port_resolution
    (candidates : List (String × Option DeviceIdent))
    (mf sf : NumberFilter) (matched : List (String × DeviceIdent))
    (hm : find_remote_device_ports candidates mf sf = .ok matched) :
    ((∃ p, find_remote_device_port candidates mf sf = .ok p) ↔
        matched.length = 1) ∧
    (∀ p ident, matched = [(p, ident)] →
        find_remote_device_port candidates mf sf = .ok p) ∧
    (matched = [] → find_remote_device_port candidates mf sf =
        .error (.runtimeError
          ("Could not find any Remote devices. Check connections and permissions.\n"
            ++ "Tried ports: "
            ++ str_list_of_ports (candidates.map Prod.fst)))) ∧
    (1 < matched.length → find_remote_device_port candidates mf sf =
        .error (.runtimeError
          ("Found more than one Remote device. Specify port or model_number and/or serial_number.\n"
            ++ "Matching ports: " ++ matching_ports_str matched))) := by
  simp only [find_remote_device_port, hm]
  match matched with
  | [] =>
    refine ⟨?_, ?_, fun _ => rfl, ?_⟩
    · simp
    · intro p ident hpi
      cases hpi
    · intro hlen
      simp at hlen
  | [(port, ident)] =>
    refine ⟨?_, ?_, ?_, ?_⟩
    · simp
    · intro p i hpi
      injection hpi with h1 _
      cases h1
      rfl
    · intro hpi
      cases hpi
    · intro hlen
      simp at hlen
  | (a :: b :: rest) =>
    refine ⟨?_, ?_, ?_, fun _ => rfl⟩
    · simp
    · intro p i hpi
      simp at hpi
    · intro hpi
      cases hpi

/-- Concrete instance of `C7_single_port_resolution`, the spec's
discovery scenario: two devices with model number 7 and serial numbers
1 and 2, one failed-open port.  Filtering by model number 7 alone is
ambiguous and the error lists both matching ports with their
identities; adding serial number 2 resolves to the single port. -/
theorem C7_single_port_resolution_witness :
    find_remote_device_port
        [("p1", some ⟨some 7, some 1⟩), ("p2", some ⟨some 7, some 2⟩),
          ("p3", Option.none)]
        (NumberFilter.intF 7) NumberFilter.noneF =
      .error (.runtimeError
        ("Found more than one Remote device. Specify port or model_number and/or serial_number.\n"
          ++ "Matching ports: " ++ matching_ports_str
            [("p1", ⟨some 7, some 1⟩), ("p2", ⟨some 7, some 2⟩)])) ∧
    find_remote_device_port
        [("p1", some ⟨some 7, some 1⟩), ("p2", some ⟨some 7, some 2⟩),
          ("p3", Option.none)]
        (NumberFilter.intF 7) (NumberFilter.intF 2) = .ok "p2" :=
  ⟨(C7_single_port_resolution
      [("p1", some ⟨some 7, some 1⟩), ("p2", some ⟨some 7, some 2⟩),
        ("p3", Option.none)]
      (NumberFilter.intF 7) NumberFilter.noneF
      [("p1", ⟨some 7, some 1⟩), ("p2", ⟨some 7, some 2⟩)] rfl).2.2.2
      (by decide),
    (C7_single_port_resolution
      [("p1", some ⟨some 7, some 1⟩), ("p2", some ⟨some 7, some 2⟩),
        ("p3", Option.none)]
      (NumberFilter.intF 7) (NumberFilter.intF 2)
      [("p2", ⟨some 7, some 2⟩)] rfl).2.1 "p2" ⟨some 7, some 2⟩ rfl⟩

/-- The Python 2 key order `tuple_le` is total. -/
theorem tuple_le_total (a b : DeviceIdent) :
    tuple_le a b = true ∨ tuple_le b a = true := by
  obtain ⟨am, as⟩ := a
  obtain ⟨bm, bs⟩ := b
  simp only [tuple_le]
  rcases am with _ | m <;> rcases bm with _ | n <;>
    rcases as with _ | s1 <;> rcases bs with _ | s2 <;>
    simp_all [opt_int_lt, opt_int_le] <;> omega

/-- The Python 2 key order `tuple_le` is transitive. -/
theorem tuple_le_trans (a b c : DeviceIdent) (h1 : tuple_le a b = true)
    (h2 : tuple_le b c = true) : tuple_le a c = true := by
  obtain ⟨am, as⟩ := a
  obtain ⟨bm, bs⟩ := b
  obtain ⟨cm, cs⟩ := c
  simp only [tuple_le] at h1 h2 ⊢
  rcases am with _ | m1 <;> rcases bm with _ | m2 <;> rcases cm with _ | m3 <;>
    rcases as with _ | s1 <;> rcases bs with _ | s2 <;> rcases cs with _ | s3 <;>
    simp_all [opt_int_lt, opt_int_le] <;> omega

/-- Membership in an insertion. -/
theorem mem_insert_device (x y : DeviceIdent) (l : List DeviceIdent) :
    y ∈ insert_device x l ↔ y = x ∨ y ∈ l := by
  induction l with
  | nil => simp [insert_device]
  | cons d ds ih =>
    simp only [insert_device]
    by_cases h : tuple_le x d = true
    · rw [if_pos h]
      simp only [List.mem_cons]
    · rw [if_neg h]
      simp only [List.mem_cons, ih]
      tauto

/-- Inserting into an ascending list keeps it ascending. -/
theorem pairwise_insert_device (x : DeviceIdent) (l : List DeviceIdent)
    (hl : l.Pairwise (fun a b => tuple_le a b = true)) :
    (insert_device x l).Pairwise (fun a b => tuple_le a b = true) := by
  induction l with
  | nil => simp [insert_device]
  | cons d ds ih =>
    rcases List.pairwise_cons.mp hl with ⟨hd, hds⟩
    by_cases h : tuple_le x d = true
    · simp only [insert_device]
      rw [if_pos h]
      refine List.pairwise_cons.mpr ⟨?_, hl⟩
      intro y hy
      rcases List.mem_cons.mp hy with hyd | hy2
      · rw [hyd]
        exact h
      · exact tuple_le_trans x d y h (hd y hy2)
    · simp only [insert_device]
      rw [if_neg h]
      refine List.pairwise_cons.mpr ⟨?_, ih hds⟩
      intro y hy
      rcases (mem_insert_device x y ds).mp hy with hyx | hy2
      · rcases tuple_le_total x d with hxd | hdx
        · exact absurd hxd h
        · rw [hyx]
          exact hdx
      · exact hd y hy2

/-- Insertion permutes consing. -/
theorem perm_insert_device (x : DeviceIdent) (l : List DeviceIdent) :
    (insert_device x l).Perm (x :: l) := by
  induction l with
  | nil => exact List.Perm.refl _
  | cons d ds ih =>
    by_cases h : tuple_le x d = true
    · simp only [insert_device]
      rw [if_pos h]
    · simp only [insert_device]
      rw [if_neg h]
      exact (ih.cons d).trans (List.Perm.swap x d ds)

/-- C9: after construction (and after any explicit re-sort) the device
collection's iteration order is ascending under the lexicographic pair
order (model_number, serial_number) — ties on model number broken by
serial number — and the collection holds exactly the constructed
sessions; in particular identities (7,2), (3,9), (7,1) iterate as
(3,9), (7,1), (7,2). -/
theorem C9_collection_order (devs : List DeviceIdent) :
    (remote_devices_init devs).Pairwise (fun a b => tuple_le a b = true) ∧
    (remote_devices_init devs).Perm devs ∧
    (∀ l : List DeviceIdent,
        (sort_by_model_number l).Pairwise
          (fun a b => tuple_le a b = true)) ∧
    remote_devices_init
        [⟨some 7, some 2⟩, ⟨some 3, some 9⟩, ⟨some 7, some 1⟩] =
      [⟨some 3, some 9⟩, ⟨some 7, some 1⟩, ⟨some 7, some 2⟩] := by
  have hpair : ∀ l : List DeviceIdent,
      (sort_by_model_number l).Pairwise (fun a b => tuple_le a b = true) := by
    intro l
    induction l with
    | nil => simp [sort_by_model_number]
    | cons d ds ih => exact pairwise_insert_device d _ ih
  have hperm : ∀ l : List DeviceIdent, (sort_by_model_number l).Perm l := by
    intro l
    induction l with
    | nil => exact List.Perm.refl _
    | cons d ds ih =>
      exact (perm_insert_device d (sort_by_model_number ds)).trans (ih.cons d)
  exact ⟨hpair devs, hperm devs, hpair, by decide⟩
